import Mathlib

/-!
Verification development for the symbolic-IR kernel of a finite-element
form language: expression nodes with free-index/shape bookkeeping,
differential operator constructors, the function-space hierarchy,
coefficient terminals with signature data, and the transform-propagation
rewrite pass.  Each definition is a shallow embedding of the
corresponding Python source; fallible constructors (ufl_assert / error)
are embedded as Except-valued functions.
-/

/-! ## Legacy expression hierarchy (differentiation.py, variable2.py)

Expressions of the legacy UFLObject hierarchy.  Every expression exposes
free_indices() (an ordered tuple of index symbols, modelled as Nat ids)
and shape() (a tuple of dimensions).  The node kinds the differential
operators need are:
  base     - an opaque expression with given shape and free indices
             (stands for the unmodelled arithmetic/tensor nodes and
             terminals of the hierarchy);
  Variable - modelled from the spec: the Variable class of ufl.variable
             is not under src/; the spec describes it as wrapping an
             arbitrary expression plus a Label (a counted terminal with
             an integer count), inheriting shape and free indices from
             the wrapped expression;
  Diff     - Diff(f, x) node (differentiation.py lines 69-98);
  Div      - Div(f) node (differentiation.py lines 133-163).
-/

inductive UFLExpr where
  | base (shape : List Nat) (freeIndices : List Nat)
  | Variable (expression : UFLExpr) (labelCount : Nat)
  | Diff (f x : UFLExpr)
  | Div (f : UFLExpr)
deriving DecidableEq, Repr

/-- free_indices() of each node kind: base carries its own; Variable
inherits from the wrapped expression (variable2.py line 51-52); Diff
stores tuple(fi + xi) (differentiation.py line 82); Div returns its
operand's free indices (differentiation.py lines 145-146). -/
def UFLExpr.free_indices : UFLExpr → List Nat
  | .base _ fi => fi
  | .Variable e _ => e.free_indices
  | .Diff f x => f.free_indices ++ x.free_indices
  | .Div f => f.free_indices

/-- shape() of each node kind: Variable inherits (variable2.py line 57-58);
Diff stores f.shape() + x.shape() (differentiation.py line 83); Div
returns self._f.shape()[1:] (differentiation.py lines 148-149). -/
def UFLExpr.shape : UFLExpr → List Nat
  | .base s _ => s
  | .Variable e _ => e.shape
  | .Diff f x => f.shape ++ x.shape
  | .Div f => f.shape.drop 1

/-- rank() is the length of shape(). -/
def UFLExpr.rank (e : UFLExpr) : Nat := e.shape.length

/-- isinstance(x, Variable) test used by Diff.__init__. -/
def UFLExpr.isVariable : UFLExpr → Bool
  | .Variable _ _ => true
  | _ => false

/-- Python set(a) ^ set(b): the symmetric difference of two index tuples
viewed as sets, as a deduplicated list.  Used by Diff.__init__ line 80:
len(set(fi) ^ set(xi)). -/
def pySetSymmDiff (a b : List Nat) : List Nat :=
  ((a.filter fun i => !(b.contains i)) ++ (b.filter fun i => !(a.contains i))).eraseDups

/-- Diff.__init__ (differentiation.py lines 72-83): asserts that x is a
Variable, then asserts len(set(fi) ^ set(xi)) == 0 with message
"Repeated indices not allowed in Diff.", then builds the node (whose
free indices are fi ++ xi and shape is f.shape ++ x.shape). -/
def Diff.make (f x : UFLExpr) : Except String UFLExpr :=
  if !x.isVariable then
    .error "Expecting a Variable in Diff."
  else if !((pySetSymmDiff f.free_indices x.free_indices).length == 0) then
    .error "Repeated indices not allowed in Diff."
  else
    .ok (.Diff f x)

/-- Div.__init__ (differentiation.py lines 136-140): asserts f.rank() >= 1
with message "Can not take the divergence of a scalar.", then asserts
len(f.free_indices()) == 0, then builds the node. -/
def Div.make (f : UFLExpr) : Except String UFLExpr :=
  if !(f.rank ≥ 1) then
    .error "Cannot take the divergence of a scalar."
  else if !(f.free_indices.length == 0) then
    .error "Taking divergence of an expression with free indices."
  else
    .ok (.Div f)

/-- labelCount of a variable node, none otherwise. -/
def UFLExpr.labelCount : UFLExpr → Option Nat
  | .Variable _ c => some c
  | _ => none

/-- NewVariable.__eq__ (variable2.py lines 63-64):
isinstance(other, Variable) and self._label._count == other._label._count.
The only field of self that is read is its label count, so the embedding
takes the label count of self together with the other value.  The name
Variable in the isinstance test resolves to the variable node kind
(the legacy Variable class of ufl.variable is not under src/; the spec
treats Variable/NewVariable as the same wrapping construct). -/
def NewVariable.eq (selfLabelCount : Nat) (other : UFLExpr) : Bool :=
  match other with
  | .Variable _ c => selfLabelCount == c
  | _ => false

/-! ## Function-space hierarchy (functionspace.py)

Opaque collaborator handles.  A domain either is abstract (its ufl_cell
accessor raises AttributeError) or carries a cell; cells are opaque ids.
An element exposes cell() - which may be a single cell or a tuple of
cells (mixed cell) - and value_shape(); elements are opaque handles with
structural hash data. -/

inductive PyDomain where
  | abstractD
  | mesh (cell : Nat)
deriving DecidableEq, Repr

/-- Result of element.cell(): a single cell or a tuple of cells.  The
same type stands for the value compared against a domain cell inside
check_domain (a plain cell compares equal only to the same single
cell; a tuple never equals a plain cell). -/
inductive ECell where
  | single (c : Nat)
  | tuple (cs : List Nat)
deriving DecidableEq, Repr

structure Element where
  ident : Nat
  cell : ECell
  value_shape : List Nat
deriving DecidableEq, Repr

/-- The domain argument of FunctionSpace.__init__: None, a single domain
handle, or a tuple of domain handles (mixed domain). -/
inductive DomainArg where
  | noneD
  | single (d : PyDomain)
  | tuple (ds : List PyDomain)
deriving DecidableEq, Repr

structure FunctionSpace where
  domain : DomainArg
  element : Element
deriving DecidableEq, Repr

/-- Cells are opaque ids; two distinct named cells used by the concrete
test case. -/
def triangle : Nat := 2

def tetrahedron : Nat := 3

/-- check_domain(d, c) from FunctionSpace.__init__ (functionspace.py
lines 36-43): abstract domains (no ufl_cell attribute) fail with
"Expected non-abstract domain"; otherwise c must equal the domain
cell or construction fails with "Non-matching cell". -/
def check_domain (d : PyDomain) (c : ECell) : Except String Unit :=
  match d with
  | .abstractD => .error "Expected non-abstract domain for initalization of function space."
  | .mesh dc =>
    if c ≠ ECell.single dc then .error "Non-matching cell of finite element and domain."
    else .ok ()

/-- FunctionSpace.__init__ (functionspace.py lines 34-63): domain None is
accepted unchecked (DOLFIN hack); a tuple domain requires element.cell()
to be a tuple of the same length, validated pairwise by check_domain;
otherwise check_domain(domain, element.cell()). -/
def FunctionSpace.make (domain : DomainArg) (element : Element) : Except String FunctionSpace :=
  match domain with
  | .noneD => .ok ⟨domain, element⟩
  | .tuple ds =>
    match element.cell with
    | .single _ => .error "Must have a mixed cell (tuple) if we have a mixed domain (tuple)."
    | .tuple cs =>
      if ds.length ≠ cs.length then
        .error "Mixed cell (tuple) and mixed domain (tuple) must have the same length."
      else do
        (ds.zip cs).forM fun dc => check_domain dc.1 (ECell.single dc.2)
        .ok ⟨domain, element⟩
  | .single d => do
    check_domain d element.cell
    .ok ⟨domain, element⟩

def FunctionSpace.ufl_element (V : FunctionSpace) : Element := V.element

/-- Hash-data values: tuples of strings, integers and None, as produced
by the _ufl_hash_data_ methods (no counted identity involved). -/
inductive HData where
  | str (s : String)
  | num (n : Nat)
  | null
  | tup (xs : List HData)
deriving Repr

mutual

/-- Python equality on hash-data values: structural. -/
def HData.beq : HData → HData → Bool
  | .str a, .str b => a == b
  | .num a, .num b => a == b
  | .null, .null => true
  | .tup a, .tup b => HData.beqList a b
  | _, _ => false

def HData.beqList : List HData → List HData → Bool
  | [], [] => true
  | x :: xs, y :: ys => HData.beq x y && HData.beqList xs ys
  | _, _ => false

end

/-- Modelled from the spec: hash data of an opaque domain handle
(ufl.domain is not under src/; the spec gives domains equality and
hash-data operations, renumbering-independent). -/
def PyDomain.hash_data : PyDomain → HData
  | .abstractD => HData.str "AbstractDomain"
  | .mesh c => HData.tup [HData.str "Mesh", HData.num c]

/-- Modelled from the spec: hash data of an opaque element handle
(ufl.finiteelement is not under src/; elements expose a
renumbering-independent hash-data operation). -/
def Element.hash_data (e : Element) : HData :=
  HData.tup [HData.str "Element", HData.num e.ident, HData.tup (e.value_shape.map HData.num)]

/-- FunctionSpace._ufl_hash_data_ (functionspace.py lines 87-100). -/
def FunctionSpace.hash_data (V : FunctionSpace) : HData :=
  HData.tup [HData.str "FunctionSpace",
    (match V.domain with
     | .noneD => HData.null
     | .tuple ds => HData.tup (ds.map PyDomain.hash_data)
     | .single d => d.hash_data),
    V.element.hash_data]

/-- Modelled from the spec: attach_operators_from_hash_data
(ufl.core.ufl_type is not under src/) equips FunctionSpace with
an equality comparing hash data. -/
def FunctionSpace.beq (V W : FunctionSpace) : Bool :=
  HData.beq V.hash_data W.hash_data

/-- Argument to MixedFunctionSpace.__init__: each positional argument is
either a genuine FunctionSpace or some other AbstractFunctionSpace
value (rejected by the constructor). -/
inductive SpaceArg where
  | fs (V : FunctionSpace)
  | otherSpace (tag : Nat)
deriving DecidableEq, Repr

structure MixedFunctionSpace where
  function_spaces : List SpaceArg
  elements : List Element
deriving DecidableEq, Repr

/-- MixedFunctionSpace.__init__ (functionspace.py lines 167-175): stores
the argument tuple and collects fs.ufl_element() for each argument,
failing with "Expecting FunctionSpace objects" on any argument that is
not a FunctionSpace. -/
def MixedFunctionSpace.make (args : List SpaceArg) : Except String MixedFunctionSpace := do
  let elements ← args.mapM fun a =>
    match a with
    | .fs V => Except.ok V.ufl_element
    | .otherSpace _ => Except.error "Expecting FunctionSpace objects"
  .ok ⟨args, elements⟩

/-- MixedFunctionSpace.ufl_elements (functionspace.py lines 185-187). -/
def MixedFunctionSpace.ufl_elements (m : MixedFunctionSpace) : List Element :=
  m.elements

/-- MixedFunctionSpace.ufl_element (functionspace.py lines 189-195):
returns the sole entry when len(self._ufl_elements) == 1, else fails
with the ambiguity error. -/
def MixedFunctionSpace.ufl_element (m : MixedFunctionSpace) : Except String Element :=
  match m.elements with
  | [e] => .ok e
  | _ => .error "Found multiple elements. Cannot return only one."

/-! ## Coefficient terminals and the signature engine (coefficient.py)

A Coefficient holds a function space, an integer count, an optional part
(sub-space index) and an optional parent back-reference to another
Coefficient. -/

inductive Coefficient where
  | mk (function_space : FunctionSpace) (count : Nat)
       (part : Option Nat) (parent : Option Coefficient)
deriving Repr

def Coefficient.function_space : Coefficient → FunctionSpace
  | .mk V _ _ _ => V

def Coefficient.count : Coefficient → Nat
  | .mk _ c _ _ => c

def Coefficient.part : Coefficient → Option Nat
  | .mk _ _ p _ => p

def Coefficient.parent : Coefficient → Option Coefficient
  | .mk _ _ _ p => p

/-- Coefficient.__eq__ (coefficient.py lines 118-126): other must be a
Coefficient, then self._count == other._count and
self._ufl_function_space == other._ufl_function_space; the part and
parent comparisons are commented out in the source.  (The identity
shortcut self is other implies equal count and space, so it does not
change the extension of the function.)  Function spaces compare by
hash data (attach_operators_from_hash_data). -/
def Coefficient.eq (a b : Coefficient) : Bool :=
  a.count == b.count && FunctionSpace.beq a.function_space b.function_space

/-- A renumbering map as supplied to _ufl_signature_data_: assigns
canonical integers to counted terminals (Coefficients) and to domains.
In the source this is one Python dict indexed by the objects
themselves. -/
structure Renumbering where
  coeffR : Coefficient → Nat
  domR : PyDomain → Nat

/-- Signature-data values: tuples of strings, integers, None, and - as
Coefficient._ufl_signature_data_ embeds self._parent raw - Coefficient
objects themselves. -/
inductive SigData where
  | str (s : String)
  | num (n : Nat)
  | null
  | coeff (c : Coefficient)
  | tup (xs : List SigData)
deriving Repr

mutual

/-- Python equality on signature-data values: tuples compare elementwise,
and an embedded Coefficient compares by Coefficient.__eq__. -/
def SigData.pyEq : SigData → SigData → Bool
  | .str a, .str b => a == b
  | .num a, .num b => a == b
  | .null, .null => true
  | .coeff a, .coeff b => Coefficient.eq a b
  | .tup a, .tup b => SigData.pyEqList a b
  | _, _ => false

def SigData.pyEqList : List SigData → List SigData → Bool
  | [], [] => true
  | x :: xs, y :: ys => SigData.pyEq x y && SigData.pyEqList xs ys
  | _, _ => false

end

/-- Modelled from the spec: signature data of an opaque domain handle
under a renumbering (ufl.domain is not under src/; the spec says counted
terminals contribute their renumbered identity). -/
def PyDomain.sig_data (R : Renumbering) (d : PyDomain) : SigData :=
  SigData.tup [SigData.str "Mesh", SigData.num (R.domR d)]

/-- Modelled from the spec: element._ufl_signature_data_() takes no
renumbering (elements have no counted identity); embed the element's
hash data. -/
def Element.sig_data (e : Element) : SigData :=
  SigData.tup [SigData.str "Element", SigData.num e.ident,
    SigData.tup (e.value_shape.map SigData.num)]

/-- FunctionSpace._ufl_signature_data_ (functionspace.py lines 102-115):
("FunctionSpace", ddata, edata) with ddata None / a tuple of domain
signature data / a single domain signature data, and edata the element
signature data. -/
def FunctionSpace.sig_data (R : Renumbering) (V : FunctionSpace) : SigData :=
  SigData.tup [SigData.str "FunctionSpace",
    (match V.domain with
     | .noneD => SigData.null
     | .tuple ds => SigData.tup (ds.map (PyDomain.sig_data R))
     | .single d => d.sig_data R),
    V.element.sig_data]

/-- The Python value self._part (None or an int) as it appears in the
signature tuple. -/
def optNatSig : Option Nat → SigData
  | none => SigData.null
  | some n => SigData.num n

/-- The Python value self._parent (None or a Coefficient object) as it
appears raw in the signature tuple. -/
def optParentSig : Option Coefficient → SigData
  | none => SigData.null
  | some c => SigData.coeff c

/-- Coefficient._ufl_signature_data_ (coefficient.py lines 101-105):
count = renumbering[self]; fsdata = function-space signature data;
returns ("Coefficient", count, self._part, self._parent, fsdata). -/
def Coefficient.sig_data (R : Renumbering) (c : Coefficient) : SigData :=
  SigData.tup [SigData.str "Coefficient", SigData.num (R.coeffR c),
    optNatSig c.part, optParentSig c.parent,
    c.function_space.sig_data R]

/-- Python equality on optional parent values (None or a Coefficient),
as tuple comparison applies it. -/
def Coefficient.optEq : Option Coefficient → Option Coefficient → Bool
  | none, none => true
  | some a, some b => Coefficient.eq a b
  | _, _ => false

/-! ## Transform propagation (algorithms/apply_transforms.py)

Expression DAG of the modern ufl_type hierarchy, with the node kinds the
pass distinguishes: form-argument terminals, other terminals,
ReferenceValue nodes (sole operand), Transformed(A, op) nodes carrying a
transform operator (an opaque handle id), and generic compound nodes
covering all remaining operator kinds (handled by the reuse_if_untouched
default). -/

inductive MExpr where
  | formArgument (ident : Nat)
  | otherTerminal (ident : Nat)
  | referenceValue (f : MExpr)
  | transformed (A : MExpr) (op : Nat)
  | compound (tag : Nat) (ops : List MExpr)
deriving Repr

/-- The _ufl_is_terminal_ flag. -/
def MExpr.is_terminal : MExpr → Bool
  | .formArgument _ => true
  | .otherTerminal _ => true
  | _ => false

/-- isinstance(f, FormArgument). -/
def MExpr.isFormArgument : MExpr → Bool
  | .formArgument _ => true
  | _ => false

mutual

/-- Modelled from the spec: map_expr_dag (ufl.corealg.map_dag is not
under src/) evaluates a ruleset over the DAG once per distinct node in
post-order, except that handlers declared on the node alone (terminal,
reference_value) receive the unrewritten node; memoization by identity
only avoids revisiting shared sub-DAGs and does not change the value
computed here.  This is the instantiation at TransformedRuleset(op)
(apply_transforms.py lines 19-34): terminals map to themselves; on a
ReferenceValue node the handler asserts that the sole operand f is a
terminal and a FormArgument (fatal AssertionError otherwise) and
returns Transformed(o, op) without recursing into o; every other node
kind falls to the reuse_if_untouched default, which rebuilds from the
rewritten operands. -/
def mapTransformedRuleset (op : Nat) : MExpr → Except String MExpr
  | .formArgument i => .ok (.formArgument i)
  | .otherTerminal i => .ok (.otherTerminal i)
  | .referenceValue f =>
    if f.is_terminal then
      if f.isFormArgument then
        .ok (.transformed (.referenceValue f) op)
      else
        .error "AssertionError: isinstance(f, FormArgument)"
    else
      .error "AssertionError: f._ufl_is_terminal_"
  | .transformed A top => do
    let A2 ← mapTransformedRuleset op A
    .ok (.transformed A2 top)
  | .compound tag ops => do
    let ops2 ← mapTransformedRulesetList op ops
    .ok (.compound tag ops2)

def mapTransformedRulesetList (op : Nat) : List MExpr → Except String (List MExpr)
  | [] => .ok []
  | x :: xs => do
    let x2 ← mapTransformedRuleset op x
    let xs2 ← mapTransformedRulesetList op xs
    .ok (x2 :: xs2)

end

mutual

/-- Modelled from the spec: map_expr_dag at TransformedRuleDispatcher
(apply_transforms.py lines 37-48): terminals map to themselves; on a
Transformed node the handler receives the rewritten operands (A,
transform_op), builds TransformedRuleset(transform_op) and re-invokes
map_expr_dag on A; every other node kind falls to the
reuse_if_untouched default. -/
def mapTransformedRuleDispatcher : MExpr → Except String MExpr
  | .formArgument i => .ok (.formArgument i)
  | .otherTerminal i => .ok (.otherTerminal i)
  | .referenceValue f => do
    let f2 ← mapTransformedRuleDispatcher f
    .ok (.referenceValue f2)
  | .transformed A top => do
    let A2 ← mapTransformedRuleDispatcher A
    mapTransformedRuleset top A2
  | .compound tag ops => do
    let ops2 ← mapTransformedRuleDispatcherList ops
    .ok (.compound tag ops2)

def mapTransformedRuleDispatcherList : List MExpr → Except String (List MExpr)
  | [] => .ok []
  | x :: xs => do
    let x2 ← mapTransformedRuleDispatcher x
    let xs2 ← mapTransformedRuleDispatcherList xs
    .ok (x2 :: xs2)

end

/-- apply_transforms (apply_transforms.py lines 51-54) maps the
dispatcher ruleset over the expression; map_integrand_dags
(ufl.algorithms.map_integrands, not under src/) is modelled from the
spec as applying map_expr_dag to the bare expression (iterating the
integrals of a form is the excluded collaborator's concern). -/
def apply_transforms (expression : MExpr) : Except String MExpr :=
  mapTransformedRuleDispatcher expression

mutual

/-- Whether the DAG contains no Transformed node. -/
def MExpr.noTransformed : MExpr → Bool
  | .formArgument _ => true
  | .otherTerminal _ => true
  | .referenceValue f => f.noTransformed
  | .transformed _ _ => false
  | .compound _ ops => MExpr.noTransformedList ops

def MExpr.noTransformedList : List MExpr → Bool
  | [] => true
  | x :: xs => x.noTransformed && MExpr.noTransformedList xs

end

mutual

/-- Modelled from the spec: expression signature data (the expression
branch of the signature engine is not under src/) - a kind tag, the
renumbered identity for counted form-argument terminals, and
recursively the signature data of the operands. -/
def MExpr.sig_data (R : Nat → Nat) : MExpr → SigData
  | .formArgument i => SigData.tup [SigData.str "FormArgument", SigData.num (R i)]
  | .otherTerminal i => SigData.tup [SigData.str "Terminal", SigData.num i]
  | .referenceValue f => SigData.tup [SigData.str "ReferenceValue", f.sig_data R]
  | .transformed A op =>
    SigData.tup [SigData.str "Transformed", A.sig_data R, SigData.num op]
  | .compound tag ops =>
    SigData.tup [SigData.str "Compound", SigData.num tag,
      SigData.tup (MExpr.sigDataList R ops)]

def MExpr.sigDataList (R : Nat → Nat) : List MExpr → List SigData
  | [] => []
  | x :: xs => x.sig_data R :: MExpr.sigDataList R xs

end

/-! ## Theorems -/

/-- C1: the claim says Diff(f, x) raises whenever the free-index sets of
f and x are not disjoint and succeeds whenever they are disjoint (with x
a Variable).  The code instead tests len(set(fi) ^ set(xi)) == 0 - the
symmetric difference - so it accepts exactly the pairs whose free-index
SETS ARE EQUAL: Diff.make succeeds on f and x that share the free index
0 (contradicting the claim and the assertion's own message "Repeated
indices not allowed in Diff."), and fails on a disjoint pair whose
index sets are nonempty (where the claim requires success). -/
theorem diff_accepts_shared_index_and_rejects_disjoint :
    Diff.make (UFLExpr.base [] [0]) (UFLExpr.Variable (UFLExpr.base [] [0]) 0)
      = Except.ok (UFLExpr.Diff (UFLExpr.base [] [0]) (UFLExpr.Variable (UFLExpr.base [] [0]) 0))
    ∧ Diff.make (UFLExpr.base [] [0]) (UFLExpr.Variable (UFLExpr.base [] []) 0)
      = Except.error "Repeated indices not allowed in Diff." := by
  constructor <;> rfl

/-- C4: equality of variable nodes compares only the label counts:
NewVariable.eq holds iff the other value is a variable node with the
same label count, and the result never depends on the wrapped
expressions on either side. -/
theorem newvariable_eq_compares_only_label_counts :
    (∀ (c : Nat) (w : UFLExpr),
      NewVariable.eq c w = true ↔ (w.isVariable = true ∧ w.labelCount = some c))
    ∧ (∀ (c cw : Nat) (e1 e2 : UFLExpr),
      NewVariable.eq c (UFLExpr.Variable e1 cw) = NewVariable.eq c (UFLExpr.Variable e2 cw)) := by
  constructor
  · intro c w
    cases w with
    | Variable e cw =>
      simp only [NewVariable.eq, UFLExpr.isVariable, UFLExpr.labelCount, beq_iff_eq,
        Option.some_inj, true_and]
      exact eq_comm
    | base s fi => simp [NewVariable.eq, UFLExpr.isVariable, UFLExpr.labelCount]
    | Diff f x => simp [NewVariable.eq, UFLExpr.isVariable, UFLExpr.labelCount]
    | Div f => simp [NewVariable.eq, UFLExpr.isVariable, UFLExpr.labelCount]
  · intro c cw e1 e2
    rfl

/-- C7: Div(f) is constructed with shape f.shape()[1:] whenever f has
rank at least 1 and no free indices; construction fails for rank-0 f or
f with free indices; in particular shape (3,) gives () and shape (3,3)
gives (3,). -/
theorem div_construction_shape (f : UFLExpr) :
    (1 ≤ f.rank → f.free_indices = [] →
      Div.make f = Except.ok (UFLExpr.Div f) ∧ (UFLExpr.Div f).shape = f.shape.drop 1)
    ∧ (f.rank = 0 ∨ f.free_indices ≠ [] → ∃ msg, Div.make f = Except.error msg)
    ∧ Div.make (UFLExpr.base [3] []) = Except.ok (UFLExpr.Div (UFLExpr.base [3] []))
    ∧ (UFLExpr.Div (UFLExpr.base [3] [])).shape = []
    ∧ Div.make (UFLExpr.base [3, 3] []) = Except.ok (UFLExpr.Div (UFLExpr.base [3, 3] []))
    ∧ (UFLExpr.Div (UFLExpr.base [3, 3] [])).shape = [3] := by
  refine ⟨?_, ?_, rfl, rfl, rfl, rfl⟩
  · intro hrank hfree
    constructor
    · simp [Div.make, hrank, hfree]
    · simp [UFLExpr.shape]
  · intro h
    by_cases hr : 1 ≤ f.rank
    · have hfi : f.free_indices ≠ [] := by
        rcases h with h | h
        · omega
        · exact h
      have hne : f.free_indices.length ≠ 0 := by
        simpa [List.length_eq_zero] using hfi
      exact ⟨"Taking divergence of an expression with free indices.", by simp [Div.make, hr, hne]⟩
    · exact ⟨"Cannot take the divergence of a scalar.", by simp [Div.make, hr]⟩

/-- C9: Coefficient equality holds iff the counts agree and the function
spaces agree (by the hash-data comparison the source attaches), and the
part and parent fields never affect the result on either side. -/
theorem coefficient_eq_iff_count_and_space :
    (∀ a b : Coefficient,
      Coefficient.eq a b = true ↔
        (a.count = b.count ∧ FunctionSpace.beq a.function_space b.function_space = true))
    ∧ (∀ (V : FunctionSpace) (c : Nat) (p1 p2 : Option Nat)
        (q1 q2 : Option Coefficient) (x : Coefficient),
      Coefficient.eq (Coefficient.mk V c p1 q1) x = Coefficient.eq (Coefficient.mk V c p2 q2) x
      ∧ Coefficient.eq x (Coefficient.mk V c p1 q1) = Coefficient.eq x (Coefficient.mk V c p2 q2)) := by
  constructor
  · intro a b
    simp [Coefficient.eq, Bool.and_eq_true, beq_iff_eq]
  · intro V c p1 p2 q1 q2 x
    exact ⟨rfl, rfl⟩

/-- C2 counterexample: a MixedFunctionSpace built from two sub-spaces
carrying the same element has exactly one distinct element among its
sub-spaces, yet ufl_element() fails with the ambiguity error - the code
tests the length of the elements list (one entry per sub-space), not the
number of distinct elements, so the claim is false as stated. -/
theorem mixed_ufl_element_fails_despite_one_distinct_element :
    MixedFunctionSpace.make
        [SpaceArg.fs ⟨DomainArg.noneD, ⟨0, ECell.single 0, []⟩⟩,
         SpaceArg.fs ⟨DomainArg.noneD, ⟨0, ECell.single 0, []⟩⟩]
      = Except.ok ⟨[SpaceArg.fs ⟨DomainArg.noneD, ⟨0, ECell.single 0, []⟩⟩,
                    SpaceArg.fs ⟨DomainArg.noneD, ⟨0, ECell.single 0, []⟩⟩],
                   [⟨0, ECell.single 0, []⟩, ⟨0, ECell.single 0, []⟩]⟩
    ∧ ([(⟨0, ECell.single 0, []⟩ : Element), ⟨0, ECell.single 0, []⟩]).eraseDups.length = 1
    ∧ MixedFunctionSpace.ufl_element
        ⟨[SpaceArg.fs ⟨DomainArg.noneD, ⟨0, ECell.single 0, []⟩⟩,
          SpaceArg.fs ⟨DomainArg.noneD, ⟨0, ECell.single 0, []⟩⟩],
         [⟨0, ECell.single 0, []⟩, ⟨0, ECell.single 0, []⟩]⟩
      = Except.error "Found multiple elements. Cannot return only one." := by
  refine ⟨rfl, by decide, rfl⟩

/-- C2 amended: ufl_element() on a MixedFunctionSpace succeeds iff the
space holds exactly one sub-space element entry (one per sub-space,
regardless of distinctness), and fails with the ambiguity error
otherwise; in particular a MixedFunctionSpace built from two
FunctionSpaces with different elements fails ufl_element() while
ufl_elements() succeeds and returns both. -/
theorem mixed_ufl_element_succeeds_iff_single_subspace :
    (∀ (args : List SpaceArg) (m : MixedFunctionSpace),
      MixedFunctionSpace.make args = Except.ok m →
      ((∃ e, m.ufl_element = Except.ok e) ↔ m.elements.length = 1))
    ∧ (∀ V W : FunctionSpace, V.element ≠ W.element →
      MixedFunctionSpace.make [SpaceArg.fs V, SpaceArg.fs W]
          = Except.ok ⟨[SpaceArg.fs V, SpaceArg.fs W], [V.element, W.element]⟩
      ∧ MixedFunctionSpace.ufl_element
          ⟨[SpaceArg.fs V, SpaceArg.fs W], [V.element, W.element]⟩
          = Except.error "Found multiple elements. Cannot return only one."
      ∧ MixedFunctionSpace.ufl_elements
          ⟨[SpaceArg.fs V, SpaceArg.fs W], [V.element, W.element]⟩
          = [V.element, W.element]) := by
  constructor
  · intro args m _
    obtain ⟨fss, els⟩ := m
    cases els with
    | nil => simp [MixedFunctionSpace.ufl_element]
    | cons e rest =>
      cases rest with
      | nil => simp [MixedFunctionSpace.ufl_element]
      | cons e2 rest2 => simp [MixedFunctionSpace.ufl_element]
  · intro V W _
    exact ⟨rfl, rfl, rfl⟩

/-- C3: Coefficient signature data embeds the renumbered identity, not
the raw count: two Coefficients on the same FunctionSpace with different
counts and default part/parent have equal signature-data tuples under
any renumbering that assigns both the same canonical integer. -/
theorem coefficient_sig_data_embeds_renumbered_count
    (V : FunctionSpace) (c1 c2 : Nat) (R : Renumbering)
    (hc : c1 ≠ c2)
    (hR : R.coeffR (Coefficient.mk V c1 none none)
        = R.coeffR (Coefficient.mk V c2 none none)) :
    Coefficient.sig_data R (Coefficient.mk V c1 none none)
      = Coefficient.sig_data R (Coefficient.mk V c2 none none) := by
  simp [Coefficient.sig_data, Coefficient.part, Coefficient.parent,
    Coefficient.function_space, hR]

/-- Witness for C3 at a concrete space, counts 0 and 1, and the constant
renumbering. -/
theorem coefficient_sig_data_embeds_renumbered_count_check :
    Coefficient.sig_data ⟨fun _ => 0, fun _ => 0⟩
        (Coefficient.mk ⟨DomainArg.noneD, ⟨0, ECell.single 0, []⟩⟩ 0 none none)
      = Coefficient.sig_data ⟨fun _ => 0, fun _ => 0⟩
        (Coefficient.mk ⟨DomainArg.noneD, ⟨0, ECell.single 0, []⟩⟩ 1 none none) :=
  coefficient_sig_data_embeds_renumbered_count
    ⟨DomainArg.noneD, ⟨0, ECell.single 0, []⟩⟩ 0 1 ⟨fun _ => 0, fun _ => 0⟩
    (by decide) rfl

theorem pyEq_optNatSig (x y : Option Nat) :
    SigData.pyEq (optNatSig x) (optNatSig y) = (x == y) := by
  cases x <;> cases y <;> simp [optNatSig, SigData.pyEq]

theorem pyEq_optParentSig (x y : Option Coefficient) :
    SigData.pyEq (optParentSig x) (optParentSig y) = Coefficient.optEq x y := by
  cases x <;> cases y <;> rfl

/-- C10: Coefficient signature data includes the raw part and parent even
though equality excludes them: two Coefficients equal under __eq__ (same
count and function space) whose part values differ, or whose parent
values differ under coefficient equality, have signature-data tuples
that compare unequal under the same renumbering. -/
theorem coefficient_sig_data_includes_part_and_parent
    (a b : Coefficient) (R : Renumbering)
    (heq : Coefficient.eq a b = true)
    (hR : R.coeffR a = R.coeffR b)
    (hdiff : a.part ≠ b.part ∨ Coefficient.optEq a.parent b.parent = false) :
    Coefficient.eq a b = true
    ∧ SigData.pyEq (Coefficient.sig_data R a) (Coefficient.sig_data R b) = false := by
  refine ⟨heq, ?_⟩
  rcases hdiff with hp | hq
  · have hfalse : (a.part == b.part) = false := beq_eq_false_iff_ne.mpr hp
    simp [Coefficient.sig_data, SigData.pyEq, SigData.pyEqList,
      pyEq_optNatSig, pyEq_optParentSig, hfalse]
  · simp [Coefficient.sig_data, SigData.pyEq, SigData.pyEqList,
      pyEq_optNatSig, pyEq_optParentSig, hq]

/-- Witness for C10: two concrete Coefficients with the same count and
space, one with part 1 and one with no part, are equal under __eq__ yet
their signature-data tuples differ. -/
theorem coefficient_sig_data_includes_part_and_parent_check :
    Coefficient.eq
        (Coefficient.mk ⟨DomainArg.noneD, ⟨0, ECell.single 0, []⟩⟩ 0 none none)
        (Coefficient.mk ⟨DomainArg.noneD, ⟨0, ECell.single 0, []⟩⟩ 0 (some 1) none) = true
    ∧ SigData.pyEq
        (Coefficient.sig_data ⟨fun _ => 0, fun _ => 0⟩
          (Coefficient.mk ⟨DomainArg.noneD, ⟨0, ECell.single 0, []⟩⟩ 0 none none))
        (Coefficient.sig_data ⟨fun _ => 0, fun _ => 0⟩
          (Coefficient.mk ⟨DomainArg.noneD, ⟨0, ECell.single 0, []⟩⟩ 0 (some 1) none)) = false :=
  coefficient_sig_data_includes_part_and_parent
    (Coefficient.mk ⟨DomainArg.noneD, ⟨0, ECell.single 0, []⟩⟩ 0 none none)
    (Coefficient.mk ⟨DomainArg.noneD, ⟨0, ECell.single 0, []⟩⟩ 0 (some 1) none)
    ⟨fun _ => 0, fun _ => 0⟩ rfl rfl (Or.inl (by decide))

theorem except_ok_bind {α β : Type} (a : α) (k : α → Except String β) :
    (Except.ok a >>= k) = k a := rfl

theorem except_error_bind {α β : Type} (msg : String) (k : α → Except String β) :
    ((Except.error msg : Except String α) >>= k) = Except.error msg := rfl

mutual

theorem mapTD_fixed : ∀ e : MExpr, e.noTransformed = true →
    mapTransformedRuleDispatcher e = Except.ok e
  | .formArgument _, _ => rfl
  | .otherTerminal _, _ => rfl
  | .referenceValue f, h => by
    have hf := mapTD_fixed f (by simpa [MExpr.noTransformed] using h)
    simp [mapTransformedRuleDispatcher, hf, except_ok_bind]
  | .transformed A op, h => by
    simp [MExpr.noTransformed] at h
  | .compound tag ops, h => by
    have hl := mapTDList_fixed ops (by simpa [MExpr.noTransformed] using h)
    simp [mapTransformedRuleDispatcher, hl, except_ok_bind]

theorem mapTDList_fixed : ∀ l : List MExpr, MExpr.noTransformedList l = true →
    mapTransformedRuleDispatcherList l = Except.ok l
  | [], _ => rfl
  | x :: xs, h => by
    have hx := mapTD_fixed x (by
      simp [MExpr.noTransformedList, Bool.and_eq_true] at h
      exact h.1)
    have hxs := mapTDList_fixed xs (by
      simp [MExpr.noTransformedList, Bool.and_eq_true] at h
      exact h.2)
    simp [mapTransformedRuleDispatcherList, hx, hxs, except_ok_bind]

end

/-- C5: apply_transforms is the identity on any expression DAG that
contains no Transformed node: the result is the very same DAG, and in
particular its signature data under any renumbering is identical. -/
theorem apply_transforms_fixed_point_without_transformed
    (e : MExpr) (R : Nat → Nat) (h : e.noTransformed = true) :
    apply_transforms e = Except.ok e
    ∧ (apply_transforms e).map (MExpr.sig_data R) = Except.ok (e.sig_data R) := by
  have hfix := mapTD_fixed e h
  exact ⟨hfix, by simp [apply_transforms, hfix, Except.map]⟩

/-- Witness for C5 on a concrete Transformed-free DAG with a
reference-value node, a compound node and terminals. -/
theorem apply_transforms_fixed_point_check :
    apply_transforms
        (MExpr.compound 0 [MExpr.referenceValue (MExpr.formArgument 1), MExpr.otherTerminal 2])
      = Except.ok
        (MExpr.compound 0 [MExpr.referenceValue (MExpr.formArgument 1), MExpr.otherTerminal 2]) :=
  (apply_transforms_fixed_point_without_transformed
    (MExpr.compound 0 [MExpr.referenceValue (MExpr.formArgument 1), MExpr.otherTerminal 2])
    id rfl).1

/-- C6: the inner transform ruleset, on a reference-value node whose sole
operand is a terminal FormArgument, returns a new Transformed node
wrapping that reference-value node and the carried operator without
recursing further; if the operand is not a genuine terminal or not a
FormArgument, the rule fails with a fatal assertion. -/
theorem reference_value_rule_wraps_form_argument (f : MExpr) (op : Nat) :
    (f.is_terminal = true ∧ f.isFormArgument = true →
      mapTransformedRuleset op (MExpr.referenceValue f)
        = Except.ok (MExpr.transformed (MExpr.referenceValue f) op))
    ∧ (f.is_terminal = false ∨ f.isFormArgument = false →
      ∃ msg, mapTransformedRuleset op (MExpr.referenceValue f) = Except.error msg) := by
  cases f with
  | formArgument i =>
    refine ⟨fun _ => rfl, ?_⟩
    intro h
    simp [MExpr.is_terminal, MExpr.isFormArgument] at h
  | otherTerminal i =>
    refine ⟨?_, fun _ => ⟨_, rfl⟩⟩
    intro h
    simp [MExpr.is_terminal, MExpr.isFormArgument] at h
  | referenceValue g =>
    refine ⟨?_, fun _ => ⟨_, rfl⟩⟩
    intro h
    simp [MExpr.is_terminal, MExpr.isFormArgument] at h
  | transformed A top =>
    refine ⟨?_, fun _ => ⟨_, rfl⟩⟩
    intro h
    simp [MExpr.is_terminal, MExpr.isFormArgument] at h
  | compound tag ops =>
    refine ⟨?_, fun _ => ⟨_, rfl⟩⟩
    intro h
    simp [MExpr.is_terminal, MExpr.isFormArgument] at h

/-- Witness for C6: on a concrete form-argument terminal the rule wraps,
and on a concrete non-terminal operand it raises. -/
theorem reference_value_rule_wraps_form_argument_check :
    mapTransformedRuleset 7 (MExpr.referenceValue (MExpr.formArgument 3))
      = Except.ok (MExpr.transformed (MExpr.referenceValue (MExpr.formArgument 3)) 7) :=
  (reference_value_rule_wraps_form_argument (MExpr.formArgument 3) 7).1 ⟨rfl, rfl⟩

theorem except_unit_not_ok {x : Except String Unit} (h : x ≠ Except.ok ()) :
    ∃ msg, x = Except.error msg := by
  cases x with
  | error msg => exact ⟨msg, rfl⟩
  | ok u => cases u; exact absurd rfl h

theorem forM_check_ok : ∀ l : List (PyDomain × Nat),
    (∀ p ∈ l, check_domain p.1 (ECell.single p.2) = Except.ok ()) →
    (l.forM fun dc => check_domain dc.1 (ECell.single dc.2)) = Except.ok ()
  | [], _ => rfl
  | p :: l, h => by
    have hp := h p (List.mem_cons_self p l)
    have hl := forM_check_ok l (fun q hq => h q (List.mem_cons_of_mem p hq))
    simp [List.forM_cons, hp, hl, except_ok_bind]

theorem forM_check_error : ∀ l : List (PyDomain × Nat),
    (∃ p ∈ l, check_domain p.1 (ECell.single p.2) ≠ Except.ok ()) →
    ∃ msg, (l.forM fun dc => check_domain dc.1 (ECell.single dc.2)) = Except.error msg
  | [], h => by simp at h
  | p :: l, h => by
    by_cases hp : check_domain p.1 (ECell.single p.2) = Except.ok ()
    · have hl : ∃ q ∈ l, check_domain q.1 (ECell.single q.2) ≠ Except.ok () := by
        rcases h with ⟨q, hq, hne⟩
        rcases List.mem_cons.mp hq with hqp | hql
        · exact absurd hp (hqp ▸ hne)
        · exact ⟨q, hql, hne⟩
      rcases forM_check_error l hl with ⟨msg, hmsg⟩
      exact ⟨msg, by simp [List.forM_cons, hp, except_ok_bind, hmsg]⟩
    · rcases except_unit_not_ok hp with ⟨msg, hmsg⟩
      exact ⟨msg, by simp [List.forM_cons, hmsg, except_error_bind]⟩

/-- C8: FunctionSpace construction validates cell agreement: a single
domain cell that differs from the element cell fails with the
cell-mismatch error (and matching cells succeed); a tuple (mixed) domain
requires the element cell to be a tuple of the same length, validated
pairwise by check_domain, and fails otherwise; in particular a triangle
domain cell with a tetrahedron element cell fails at construction. -/
theorem functionspace_make_validates_cells :
    (∀ (dc : Nat) (e : Element) (c : Nat), e.cell = ECell.single c → c ≠ dc →
      FunctionSpace.make (DomainArg.single (PyDomain.mesh dc)) e
        = Except.error "Non-matching cell of finite element and domain.")
    ∧ (∀ (dc : Nat) (e : Element) (c : Nat), e.cell = ECell.single c → c = dc →
      FunctionSpace.make (DomainArg.single (PyDomain.mesh dc)) e
        = Except.ok ⟨DomainArg.single (PyDomain.mesh dc), e⟩)
    ∧ (∀ (ds : List PyDomain) (e : Element) (c : Nat), e.cell = ECell.single c →
      FunctionSpace.make (DomainArg.tuple ds) e
        = Except.error "Must have a mixed cell (tuple) if we have a mixed domain (tuple).")
    ∧ (∀ (ds : List PyDomain) (e : Element) (cs : List Nat), e.cell = ECell.tuple cs →
      ds.length ≠ cs.length →
      FunctionSpace.make (DomainArg.tuple ds) e
        = Except.error "Mixed cell (tuple) and mixed domain (tuple) must have the same length.")
    ∧ (∀ (ds : List PyDomain) (e : Element) (cs : List Nat), e.cell = ECell.tuple cs →
      ds.length = cs.length →
      (∃ p ∈ ds.zip cs, check_domain p.1 (ECell.single p.2) ≠ Except.ok ()) →
      ∃ msg, FunctionSpace.make (DomainArg.tuple ds) e = Except.error msg)
    ∧ (∀ (ds : List PyDomain) (e : Element) (cs : List Nat), e.cell = ECell.tuple cs →
      ds.length = cs.length →
      (∀ p ∈ ds.zip cs, check_domain p.1 (ECell.single p.2) = Except.ok ()) →
      FunctionSpace.make (DomainArg.tuple ds) e = Except.ok ⟨DomainArg.tuple ds, e⟩)
    ∧ FunctionSpace.make (DomainArg.single (PyDomain.mesh triangle))
        ⟨1, ECell.single tetrahedron, []⟩
        = Except.error "Non-matching cell of finite element and domain." := by
  refine ⟨?_, ?_, ?_, ?_, ?_, ?_, by rfl⟩
  · intro dc e c hcell hne
    have : ECell.single c ≠ ECell.single dc := by
      intro hcon
      exact hne (by injection hcon)
    simp [FunctionSpace.make, check_domain, hcell, this, except_error_bind]
  · intro dc e c hcell heq
    subst heq
    simp [FunctionSpace.make, check_domain, hcell, except_ok_bind]
  · intro ds e c hcell
    simp [FunctionSpace.make, hcell]
  · intro ds e cs hcell hne
    simp [FunctionSpace.make, hcell, hne]
  · intro ds e cs hcell hlen hbad
    rcases forM_check_error (ds.zip cs) hbad with ⟨msg, hmsg⟩
    exact ⟨msg, by simp [FunctionSpace.make, hcell, hlen, hmsg, except_error_bind]⟩
  · intro ds e cs hcell hlen hok
    have hforM := forM_check_ok (ds.zip cs) hok
    simp [FunctionSpace.make, hcell, hlen, hforM, except_ok_bind]

/-- Witness for C8: a concrete mismatching single-cell pair fails, and a
concrete matching pair succeeds. -/
theorem functionspace_make_validates_cells_check :
    FunctionSpace.make (DomainArg.single (PyDomain.mesh 0)) ⟨5, ECell.single 1, []⟩
      = Except.error "Non-matching cell of finite element and domain."
    ∧ FunctionSpace.make (DomainArg.single (PyDomain.mesh 0)) ⟨5, ECell.single 0, []⟩
      = Except.ok ⟨DomainArg.single (PyDomain.mesh 0), ⟨5, ECell.single 0, []⟩⟩ :=
  ⟨functionspace_make_validates_cells.1 0 ⟨5, ECell.single 1, []⟩ 1 rfl (by decide),
   (functionspace_make_validates_cells.2.1) 0 ⟨5, ECell.single 0, []⟩ 0 rfl rfl⟩


/-- Witness for C2's amended theorem: a single-sub-space instance where
ufl_element succeeds, and a concrete two-element instance. -/
theorem mixed_ufl_element_succeeds_iff_single_subspace_check :
    (∃ e, MixedFunctionSpace.ufl_element
        ⟨[SpaceArg.fs ⟨DomainArg.noneD, ⟨0, ECell.single 0, []⟩⟩],
         [⟨0, ECell.single 0, []⟩]⟩ = Except.ok e)
    ∧ MixedFunctionSpace.ufl_element
        ⟨[SpaceArg.fs ⟨DomainArg.noneD, ⟨0, ECell.single 0, []⟩⟩,
          SpaceArg.fs ⟨DomainArg.noneD, ⟨1, ECell.single 0, []⟩⟩],
         [⟨0, ECell.single 0, []⟩, ⟨1, ECell.single 0, []⟩]⟩
      = Except.error "Found multiple elements. Cannot return only one." :=
  ⟨(mixed_ufl_element_succeeds_iff_single_subspace.1
      [SpaceArg.fs ⟨DomainArg.noneD, ⟨0, ECell.single 0, []⟩⟩]
      ⟨[SpaceArg.fs ⟨DomainArg.noneD, ⟨0, ECell.single 0, []⟩⟩],
       [⟨0, ECell.single 0, []⟩]⟩ rfl).mpr rfl,
   (mixed_ufl_element_succeeds_iff_single_subspace.2
      ⟨DomainArg.noneD, ⟨0, ECell.single 0, []⟩⟩
      ⟨DomainArg.noneD, ⟨1, ECell.single 0, []⟩⟩ (by decide)).2.1⟩

/-- Witness for C4 at concrete label counts and wrapped expressions. -/
theorem newvariable_eq_compares_only_label_counts_check :
    NewVariable.eq 5 (UFLExpr.Variable (UFLExpr.base [] []) 5) = true :=
  (newvariable_eq_compares_only_label_counts.1 5
    (UFLExpr.Variable (UFLExpr.base [] []) 5)).mpr ⟨rfl, rfl⟩

/-- Witness for C7 at a concrete rank-1 operand. -/
theorem div_construction_shape_check :
    Div.make (UFLExpr.base [3] []) = Except.ok (UFLExpr.Div (UFLExpr.base [3] []))
    ∧ (UFLExpr.Div (UFLExpr.base [3] [])).shape = [] :=
  (div_construction_shape (UFLExpr.base [3] [])).1 (by decide) rfl

/-- Witness for C9 at two concrete Coefficients differing only in part. -/
theorem coefficient_eq_iff_count_and_space_check :
    Coefficient.eq
        (Coefficient.mk ⟨DomainArg.noneD, ⟨0, ECell.single 0, []⟩⟩ 0 none none)
        (Coefficient.mk ⟨DomainArg.noneD, ⟨0, ECell.single 0, []⟩⟩ 0 (some 2) none) = true :=
  (coefficient_eq_iff_count_and_space.1
    (Coefficient.mk ⟨DomainArg.noneD, ⟨0, ECell.single 0, []⟩⟩ 0 none none)
    (Coefficient.mk ⟨DomainArg.noneD, ⟨0, ECell.single 0, []⟩⟩ 0 (some 2) none)).mpr
    ⟨rfl, by decide⟩
